import Mathlib

/-
Verification of the relationship-graph explorer frontend
(src/frontend/src/App.jsx) against its design specification.

The file shallowly embeds the React component `GraphExplorer`:
its state hooks, event handlers (node click, reset, entity selection,
mode/depth controls, drag callbacks) and the d3 force-simulation setup
that the `useEffect [graphData]` hook performs.
-/

set_option autoImplicit false

namespace RelGraph

/-- Exploration mode, `useState('interactive')` at App.jsx line 14.
The two values written by the mode radio buttons (lines 336-354). -/
inductive Mode where
  | interactive
  | radial
deriving Repr, DecidableEq

/-- A node of the query result as delivered on the wire and bound to the
d3 selection (`graphData.nodes`).  Fields per the node wire shape:
`id, label, type, size, expandable, expanded, root`. -/
structure RenderNode where
  id : String
  label : String
  type : String
  size : Int
  expandable : Bool
  expanded : Bool
  root : Bool
deriving Repr, DecidableEq

/-- An edge of the query result (`graphData.links`): endpoints by id,
a color keyed by relationship type, and the sub-type label. -/
structure RenderEdge where
  source : String
  target : String
  color : String
  relationship_sub_type : String
deriving Repr, DecidableEq

/-- The `graphData` state value: the response of an interactive or radial
query (`setGraphData(data)` at App.jsx line 65). -/
structure GraphData where
  nodes : List RenderNode
  links : List RenderEdge
deriving Repr, DecidableEq

/-- The `/stats` response consumed at App.jsx lines 33-35. -/
structure Stats where
  node_count : Int
  edge_count : Int
  density : Rat
deriving Repr, DecidableEq

/-- The `/upload` + `/stats` responses a successful `uploadFile` consumes:
`data.entities` (line 31) and the stats object (line 35). -/
structure UploadResp where
  entities : List String
  stats : Stats
deriving Repr, DecidableEq

/-- The React state of `GraphExplorer` (App.jsx lines 9-16): one field per
`useState` hook, with the hooks' initial values gathered in `initialState`. -/
structure AppState where
  entities : List String
  selectedEntity : String
  expandedNodes : List String
  graphData : Option GraphData
  stats : Option Stats
  mode : Mode
  depth : Int
  uploading : Bool
deriving Repr, DecidableEq

/-- The initial values of the `useState` hooks (App.jsx lines 9-16):
empty entity list, no selection, empty expansion list, no graph data,
no stats, interactive mode, depth 2, not uploading. -/
def initialState : AppState :=
  { entities := []
    selectedEntity := ""
    expandedNodes := []
    graphData := none
    stats := none
    mode := Mode.interactive
    depth := 2
    uploading := false }

/-- The node click handler (App.jsx lines 206-211):
`if (d.expandable && mode === 'interactive') setExpandedNodes(prev => [...prev, d.id])`.
The append is unconditional on membership: no check that `d.id` is already
in `expandedNodes` is performed. -/
def clickNode (mode : Mode) (d : RenderNode) (expandedNodes : List String) :
    List String :=
  if d.expandable && mode == Mode.interactive then
    expandedNodes ++ [d.id]
  else
    expandedNodes

/-- The `useEffect [selectedEntity]` body (App.jsx lines 71-75):
`if (selectedEntity) setExpandedNodes([selectedEntity])`.
A JS string is truthy iff nonempty. -/
def selectEntityEffect (selectedEntity : String)
    (expandedNodes : List String) : List String :=
  if selectedEntity ≠ "" then [selectedEntity] else expandedNodes

/-- `handleReset` (App.jsx lines 273-277):
`if (selectedEntity) setExpandedNodes([selectedEntity])`. -/
def handleReset (selectedEntity : String) (expandedNodes : List String) :
    List String :=
  if selectedEntity ≠ "" then [selectedEntity] else expandedNodes

/-- `uploadFile` (App.jsx lines 20-41), as a function of the transport
outcome.  On success it stores `data.entities` and the stats response; on a
thrown error it only raises `alert('Error uploading file: ' + error.message)`.
Either way the `finally` block clears `uploading`.  The second component is
the alert message, if one is shown. -/
def uploadFile (s : AppState) (r : Except String UploadResp) :
    AppState × Option String :=
  match r with
  | Except.ok resp =>
      ({ s with entities := resp.entities, stats := some resp.stats,
                uploading := false }, none)
  | Except.error msg =>
      ({ s with uploading := false }, some ("Error uploading file: " ++ msg))

/-- `loadGraph` (App.jsx lines 43-69), as a function of the transport
outcome.  It returns immediately when no entity is selected (line 44); on a
successful response it stores the parsed body via `setGraphData` (line 65);
on a thrown error it only raises `alert('Error loading graph: ' + error.message)`
(line 67).  The second component is the alert message, if one is shown. -/
def loadGraph (s : AppState) (r : Except String GraphData) :
    AppState × Option String :=
  if s.selectedEntity = "" then (s, none)
  else
    match r with
    | Except.ok data => ({ s with graphData := some data }, none)
    | Except.error msg => (s, some ("Error loading graph: " ++ msg))

/-- The request body of the radial branch of `loadGraph` (App.jsx line 61):
`JSON.stringify({ entity: selectedEntity, depth })`. -/
def radialRequestBody (s : AppState) : String × Int :=
  (s.selectedEntity, s.depth)

/-- The drawn radius of a node: `.attr('r', d.size)` (App.jsx lines 167
and 182) — each circle is drawn with radius equal to the node's `size`. -/
def drawnRadius (d : RenderNode) : Int :=
  d.size

/-- The collision-force radius: `d3.forceCollide().radius(40)` (App.jsx
line 126) — the constant 40, for every node, independent of its fields. -/
def collideRadius (d : RenderNode) : Int :=
  let _ := d
  40

/-- A node owned by the live d3 simulation: an identifier plus the mutable
position the simulation maintains (`none` while d3 has not yet initialized
or assigned the `x`/`y` fields of the object). -/
structure LayoutNode where
  id : String
  pos : Option (Int × Int)
deriving Repr, DecidableEq

/-- The layout nodes produced by the `useEffect [graphData]` hook (App.jsx
lines 81-128).  The hook clears the svg (`selectAll('*').remove()`, line 85)
and passes the freshly parsed `graphData.nodes` to a brand-new
`d3.forceSimulation` (line 122).  The server response carries no `x`/`y`
fields and the previous simulation (reachable through `simulationRef`,
line 128) is never read, so every layout node enters the new simulation
with no position: the `prev` argument — the previous simulation's nodes —
is ignored. -/
def renderEffectNodes (prev : List LayoutNode) (gd : GraphData) :
    List LayoutNode :=
  let _ := prev
  gd.nodes.map (fun n => { id := n.id, pos := none })

/-- The carry-over property the specification demands of a layout rebuild:
every node identifier persisting from the previous layout keeps its
position in the new one. -/
def positionsCarriedOver (prev next : List LayoutNode) : Prop :=
  ∀ o ∈ prev, ∀ n ∈ next, o.id = n.id → n.pos = o.pos

instance (prev next : List LayoutNode) :
    Decidable (positionsCarriedOver prev next) := by
  unfold positionsCarriedOver
  infer_instance

/-- The simulation handle as touched by the drag callbacks: its alpha
target (`simulation.alphaTarget(v)`) and whether `restart()` has put it
back in the running state. -/
structure Simulation where
  alphaTarget : Rat
  running : Bool
deriving Repr, DecidableEq

/-- A simulation node as touched by the drag callbacks: current position
`x`/`y` and the optional fixed position `fx`/`fy` (`null` encoded as
`none`). -/
structure SimNode where
  id : String
  x : Int
  y : Int
  fx : Option Int
  fy : Option Int
deriving Repr, DecidableEq

/-- `dragstarted` (App.jsx lines 254-258):
`if (!event.active) simulation.alphaTarget(0.3).restart(); d.fx = d.x; d.fy = d.y`.
`active` is d3's count of other concurrently active drag gestures, here as
the boolean `event.active ≠ 0`. -/
def dragstarted (active : Bool) (sim : Simulation) (d : SimNode) :
    Simulation × SimNode :=
  let sim' := if !active then
      { sim with alphaTarget := 3 / 10, running := true }
    else sim
  (sim', { d with fx := some d.x, fy := some d.y })

/-- `dragged` (App.jsx lines 260-263): `d.fx = event.x; d.fy = event.y`. -/
def dragged (px py : Int) (d : SimNode) : SimNode :=
  { d with fx := some px, fy := some py }

/-- `dragended` (App.jsx lines 265-269):
`if (!event.active) simulation.alphaTarget(0); d.fx = null; d.fy = null`. -/
def dragended (active : Bool) (sim : Simulation) (d : SimNode) :
    Simulation × SimNode :=
  let sim' := if !active then { sim with alphaTarget := 0 } else sim
  (sim', { d with fx := none, fy := none })

/-- The user and transport events that update the `GraphExplorer` state:
entity selection (select element, line 416, whose change fires the
`useEffect [selectedEntity]`), the mode radio buttons (lines 340 and 350),
the depth range slider (line 365), a node click (line 206), the reset
button (line 427), and the completion of an upload or graph load. -/
inductive AppEvent where
  | selectEntity (e : String)
  | setMode (m : Mode)
  | setDepth (v : Int)
  | click (d : RenderNode)
  | reset
  | uploadResult (r : Except String UploadResp)
  | loadResult (r : Except String GraphData)
deriving Repr

/-- One step of the `GraphExplorer` state machine: each event dispatched to
the handler the source attaches to it. `selectEntity` performs
`setSelectedEntity` followed by the `useEffect [selectedEntity]` body; the
select element's change event only fires when the chosen value differs
from the current one, so a selection of the current entity is the identity. -/
def appStep (s : AppState) : AppEvent → AppState
  | AppEvent.selectEntity e =>
      if e = s.selectedEntity then s
      else { s with selectedEntity := e,
                    expandedNodes := selectEntityEffect e s.expandedNodes }
  | AppEvent.setMode m => { s with mode := m }
  | AppEvent.setDepth v => { s with depth := v }
  | AppEvent.click d =>
      { s with expandedNodes := clickNode s.mode d s.expandedNodes }
  | AppEvent.reset =>
      { s with expandedNodes := handleReset s.selectedEntity s.expandedNodes }
  | AppEvent.uploadResult r => (uploadFile s r).1
  | AppEvent.loadResult r => (loadGraph s r).1

/-- The events of one incremental exploration session (fixed root):
node clicks and explicit resets. -/
inductive SessionEvent where
  | click (mode : Mode) (d : RenderNode)
  | reset
deriving Repr, DecidableEq

/-- One session step: a click runs the node click handler, a reset runs
`handleReset` with the session's root as the selected entity. -/
def sessionStep (root : String) (s : List String) :
    SessionEvent → List String
  | SessionEvent.click mode d => clickNode mode d s
  | SessionEvent.reset => handleReset root s

/-- The expansion state after a session: the `useEffect [selectedEntity]`
initialization (from the empty initial list) followed by the session's
events in order. -/
def sessionRun (root : String) (evs : List SessionEvent) : List String :=
  evs.foldl (sessionStep root) (selectEntityEffect root [])

/-- The `depth` state after a sequence of values emitted by the range
slider: `setDepth(parseInt(e.target.value))` (App.jsx line 365) replaces
the state with the emitted value; the initial value is 2 (line 15). -/
def depthAfter (vs : List Int) : Int :=
  vs.foldl (fun _ v => v) 2

/-- The node "Acme" as it is still rendered after a first click on it:
`expandable` was computed for the previous expansion state, so the stale
render keeps `expandable = true` although "Acme" is already expanded. -/
def staleAcme : RenderNode :=
  { id := "Acme", label := "Acme", type := "company", size := 20,
    expandable := true, expanded := false, root := false }

/-- A rendered node that is not expandable (a leaf of the result set). -/
def leafBob : RenderNode :=
  { id := "Bob", label := "Bob", type := "person", size := 20,
    expandable := false, expanded := false, root := false }

/-- A previous layout holding the single node "A" at position (5, 7). -/
def prevLayoutA : List LayoutNode :=
  [{ id := "A", pos := some (5, 7) }]

/-- A query result containing the same node "A" (so "A" persists across
the re-query). -/
def gdA : GraphData :=
  { nodes := [{ id := "A", label := "A", type := "person", size := 20,
                expandable := false, expanded := true, root := true }],
    links := [] }

/-
Theorems
-/

/-- C1: the claim says a click on an expandable node appends its id to the
expansion state only if it is not already present.  The handler
(App.jsx lines 206-211) appends unconditionally: clicking "Acme" — still
rendered with `expandable = true` from the stale result — while "Acme" is
already in the expansion state produces the duplicate
`["Alice", "Acme", "Acme"]`, in which "Acme" occurs twice. -/
theorem c1_click_appends_duplicate :
    clickNode Mode.interactive staleAcme ["Alice", "Acme"] =
      ["Alice", "Acme", "Acme"] ∧
    (clickNode Mode.interactive staleAcme ["Alice", "Acme"]).count "Acme" = 2 := by
  constructor <;> decide

/-- C2 counterexample: the previous layout holds node "A" at (5, 7) and
"A" persists into the new query result, yet the rebuilt layout does not
carry its position over: the effect rebuilds "A" with no position. -/
theorem c2_cex_positions_reset :
    ¬ positionsCarriedOver prevLayoutA (renderEffectNodes prevLayoutA gdA) := by
  decide

/-- C2 (amended): the `useEffect [graphData]` body rebuilds the layout from
scratch: every layout node it hands to the new simulation starts with no
position, and the rebuilt layout is entirely independent of the previous
simulation's nodes — positions of persisting nodes are reset, not carried
over. -/
theorem c2_rebuild_resets_positions (prev₁ prev₂ : List LayoutNode)
    (gd : GraphData) (n : LayoutNode)
    (hn : n ∈ renderEffectNodes prev₁ gd) :
    n.pos = none ∧ renderEffectNodes prev₁ gd = renderEffectNodes prev₂ gd := by
  refine ⟨?_, rfl⟩
  simp only [renderEffectNodes, List.mem_map] at hn
  obtain ⟨m, _, h⟩ := hn
  rw [← h]

/-- C2 witness: the rebuilt layout node for "A" indeed has no position. -/
theorem c2_rebuild_resets_positions_witness :
    (({ id := "A", pos := none } : LayoutNode) ∈
        renderEffectNodes prevLayoutA gdA) ∧
    ({ id := "A", pos := none } : LayoutNode).pos = none ∧
    renderEffectNodes prevLayoutA gdA = renderEffectNodes [] gdA := by
  refine ⟨by decide, ?_⟩
  exact c2_rebuild_resets_positions prevLayoutA [] gdA
    { id := "A", pos := none } (by decide)

/-- C3 counterexample: for a node of size 20 the collision radius is the
constant 40, not the node's drawn radius (its `size`). -/
theorem c3_cex_collision_radius_not_size :
    collideRadius leafBob = 40 ∧ drawnRadius leafBob = 20 ∧
    collideRadius leafBob ≠ drawnRadius leafBob := by
  refine ⟨rfl, rfl, by decide⟩

/-- C3 (amended): the collision force uses one shared constant radius, 40,
for every node, independent of the node's `size` (which is still the drawn
radius). -/
theorem c3_collision_radius_constant (d e : RenderNode) :
    collideRadius d = 40 ∧ collideRadius d = collideRadius e ∧
    drawnRadius d = d.size :=
  ⟨rfl, rfl, rfl⟩

/-- Clicking never removes an element from the expansion state: every
member survives a `clickNode` step. -/
theorem clickNode_mem_preserved (mode : Mode) (d : RenderNode)
    (s : List String) (x : String) (hx : x ∈ s) :
    x ∈ clickNode mode d s := by
  unfold clickNode
  split
  · exact List.mem_append_left _ hx
  · exact hx

/-- Within a session with nonempty root, the root stays in the expansion
state over any tail of session events. -/
theorem root_mem_session_foldl (root : String) (h : root ≠ "")
    (evs : List SessionEvent) :
    ∀ s : List String, root ∈ s → root ∈ evs.foldl (sessionStep root) s := by
  induction evs with
  | nil => intro s hs; simpa using hs
  | cons ev evs ih =>
      intro s hs
      refine ih _ ?_
      cases ev with
      | click mode d => exact clickNode_mem_preserved mode d s root hs
      | reset => simp [sessionStep, handleReset, h]

/-- C4: within an incremental session on a nonempty root: the root is a
member of the expansion state in every reachable state; a click removes
nothing (it only appends or leaves the list unchanged); and reset sets the
state back to exactly `[root]`. -/
theorem c4_root_invariant (root : String) (h : root ≠ "") :
    (∀ evs : List SessionEvent, root ∈ sessionRun root evs) ∧
    (∀ (s : List String) (mode : Mode) (d : RenderNode),
        ∀ x ∈ s, x ∈ sessionStep root s (SessionEvent.click mode d)) ∧
    (∀ s : List String, sessionStep root s SessionEvent.reset = [root]) := by
  refine ⟨?_, ?_, ?_⟩
  · intro evs
    apply root_mem_session_foldl root h
    simp [selectEntityEffect, h]
  · intro s mode d x hx
    exact clickNode_mem_preserved mode d s x hx
  · intro s
    simp [sessionStep, handleReset, h]

/-- C4 witness: a concrete session on root "Alice" with one click and one
reset keeps "Alice" in the expansion state. -/
theorem c4_root_invariant_witness :
    ("Alice" : String) ≠ "" ∧
    "Alice" ∈ sessionRun "Alice"
      [SessionEvent.click Mode.interactive staleAcme, SessionEvent.reset] := by
  refine ⟨by decide, ?_⟩
  exact (c4_root_invariant "Alice" (by decide)).1
    [SessionEvent.click Mode.interactive staleAcme, SessionEvent.reset]

/-- C5: the drag protocol.  On drag start the node is pinned at its current
position and, when no other gesture is active, the alpha target is raised
to 0.3 and the simulation restarted; on drag move the pin tracks the
pointer; on drag end the pin is cleared and, when no other gesture is
active, the alpha target returns to 0. -/
theorem c5_drag_protocol (sim : Simulation) (d : SimNode) (px py : Int) :
    dragstarted false sim d =
      ({ sim with alphaTarget := 3 / 10, running := true },
       { d with fx := some d.x, fy := some d.y }) ∧
    dragstarted true sim d =
      (sim, { d with fx := some d.x, fy := some d.y }) ∧
    dragged px py d = { d with fx := some px, fy := some py } ∧
    dragended false sim d =
      ({ sim with alphaTarget := 0 }, { d with fx := none, fy := none }) ∧
    dragended true sim d = (sim, { d with fx := none, fy := none }) :=
  ⟨rfl, rfl, rfl, rfl, rfl⟩

/-- C6: clicking a node with `expandable = false`, or clicking any node in
radial mode, leaves the expansion state unchanged. -/
theorem c6_click_noop (mode : Mode) (d : RenderNode) (l : List String)
    (h : d.expandable = false ∨ mode = Mode.radial) :
    clickNode mode d l = l := by
  rcases h with h | h
  · simp [clickNode, h]
  · subst h; simp [clickNode]

/-- C6 witness: clicking the non-expandable node "Bob" in interactive mode
is a no-op. -/
theorem c6_click_noop_witness :
    (leafBob.expandable = false ∨ Mode.interactive = Mode.radial) ∧
    clickNode Mode.interactive leafBob ["Alice"] = ["Alice"] := by
  refine ⟨Or.inl (by decide), ?_⟩
  exact c6_click_noop Mode.interactive leafBob ["Alice"] (Or.inl (by decide))

/-- C7: a failed upload raises the visible message
"Error uploading file: ..." and a failed graph load raises
"Error loading graph: ..." (when an entity is selected, so that a request
was issued at all); neither failure changes `expandedNodes` or
`graphData`. -/
theorem c7_transport_failure_is_safe (s : AppState) (msg : String) :
    ((uploadFile s (Except.error msg)).2 =
        some ("Error uploading file: " ++ msg) ∧
     (uploadFile s (Except.error msg)).1.expandedNodes = s.expandedNodes ∧
     (uploadFile s (Except.error msg)).1.graphData = s.graphData) ∧
    ((loadGraph s (Except.error msg)).1.expandedNodes = s.expandedNodes ∧
     (loadGraph s (Except.error msg)).1.graphData = s.graphData ∧
     (loadGraph s (Except.error msg)).2 =
       (if s.selectedEntity = "" then none
        else some ("Error loading graph: " ++ msg))) := by
  refine ⟨⟨rfl, rfl, rfl⟩, ?_⟩
  unfold loadGraph
  by_cases hsel : s.selectedEntity = "" <;> simp [hsel]

/-- Replacing-fold bound: if every emitted value lies in [1, 5] and the
starting value does, the final value does. -/
theorem depth_foldl_bound (vs : List Int) :
    ∀ init : Int, (∀ v ∈ vs, 1 ≤ v ∧ v ≤ 5) → (1 ≤ init ∧ init ≤ 5) →
      1 ≤ vs.foldl (fun _ v => v) init ∧ vs.foldl (fun _ v => v) init ≤ 5 := by
  induction vs with
  | nil => intro init _ h; simpa using h
  | cons v vs ih =>
      intro init hv _
      simp only [List.foldl_cons]
      exact ih v (fun w hw => hv w (List.mem_cons_of_mem _ hw))
        (hv v (List.mem_cons_self _ _))

/-- C8: the depth slider (min 1, max 5, integer steps) can only emit values
in [1, 5]; starting from the initial depth 2, after any sequence of slider
changes the depth stays in [1, 5], and the radial request body carries
exactly that depth. -/
theorem c8_depth_bounded (vs : List Int)
    (h : ∀ v ∈ vs, 1 ≤ v ∧ v ≤ 5) :
    (1 ≤ depthAfter vs ∧ depthAfter vs ≤ 5) ∧
    ∀ s : AppState, s.depth = depthAfter vs →
      (radialRequestBody s).2 = depthAfter vs := by
  refine ⟨depth_foldl_bound vs 2 h (by decide), ?_⟩
  intro s hs
  simpa [radialRequestBody] using hs

/-- C8 witness: the slider sequence 3, 5, 1 keeps the depth in bounds. -/
theorem c8_depth_bounded_witness :
    (∀ v ∈ ([3, 5, 1] : List Int), 1 ≤ v ∧ v ≤ 5) ∧
    1 ≤ depthAfter [3, 5, 1] ∧ depthAfter [3, 5, 1] ≤ 5 := by
  refine ⟨by decide, ?_⟩
  exact (c8_depth_bounded [3, 5, 1] (by decide)).1

/-- C9: selecting a different, nonempty root entity replaces the expansion
state with exactly the singleton of the new entity, discarding the
previous session's expansion state. -/
theorem c9_select_entity_resets (s : AppState) (e : String)
    (h : e ≠ "") (hne : e ≠ s.selectedEntity) :
    (appStep s (AppEvent.selectEntity e)).expandedNodes = [e] ∧
    (appStep s (AppEvent.selectEntity e)).selectedEntity = e := by
  simp [appStep, hne, selectEntityEffect, h]

/-- C9 witness: selecting "Alice" in the initial state yields expansion
state exactly ["Alice"]. -/
theorem c9_select_entity_resets_witness :
    ("Alice" : String) ≠ "" ∧
    ("Alice" : String) ≠ initialState.selectedEntity ∧
    (appStep initialState (AppEvent.selectEntity "Alice")).expandedNodes =
      ["Alice"] := by
  refine ⟨by decide, by decide, ?_⟩
  exact (c9_select_entity_resets initialState "Alice" (by decide) (by decide)).1

/-- C10: neither a mode switch nor a depth change (nor the completion of an
upload or graph load) writes `expandedNodes` — those are the only events
besides entity selection, click and reset — so switching to radial mode and
back to interactive restores the previously expanded set unchanged. -/
theorem c10_mode_depth_preserve_expansion (s : AppState) (m : Mode) (v : Int)
    (r : Except String UploadResp) (g : Except String GraphData) :
    (appStep s (AppEvent.setMode m)).expandedNodes = s.expandedNodes ∧
    (appStep s (AppEvent.setDepth v)).expandedNodes = s.expandedNodes ∧
    (appStep s (AppEvent.uploadResult r)).expandedNodes = s.expandedNodes ∧
    (appStep s (AppEvent.loadResult g)).expandedNodes = s.expandedNodes ∧
    (appStep (appStep s (AppEvent.setMode Mode.radial))
        (AppEvent.setMode Mode.interactive)).expandedNodes =
      s.expandedNodes := by
  refine ⟨rfl, rfl, ?_, ?_, rfl⟩
  · cases r <;> rfl
  · unfold appStep loadGraph
    by_cases hsel : s.selectedEntity = ""
    · simp [hsel]
    · cases g <;> simp [hsel]

end RelGraph
